import Mathlib

/-!
Verification development for the OpenSec gateway.

Shallow embedding of the request-screening pipeline: the sensitive-data
interceptor, the risk-aggregation engine, the provider router with its
response cache, the bounded audit log and the derived statistics view.
External capabilities (ML scanners, the firewall object, the remote
reasoning model, the LLM provider) are modelled as explicit inputs, so
every function of the code becomes a pure Lean function of the request
text plus the behaviour of those capabilities.

Scores are modelled as rationals: the code only builds them from decimal
literals, `max`, and comparisons, all of which are exact on rationals.
-/

/-- Substring test on character lists: is the first list a contiguous
prefix of the second. Mirrors the semantics used by the Python `in`
operator on strings. -/
def listPrefixB : List Char → List Char → Bool
  | [], _ => true
  | _ :: _, [] => false
  | a :: as, b :: bs => a == b && listPrefixB as bs

/-- Substring test: does `needle` occur contiguously inside `hay`.
Models the Python expression `needle in hay` for strings. -/
def listSubB (needle : List Char) : List Char → Bool
  | [] => needle.isEmpty
  | c :: t => listPrefixB needle (c :: t) || listSubB needle t

/-- Python style substring containment on strings. -/
def strInB (needle hay : String) : Bool :=
  listSubB needle.toList hay.toList

/-- ASCII lowercase of one character; models the effect of the Python
`str.lower` method on the character range the code works with. -/
def lowerChar (c : Char) : Char :=
  if 65 ≤ c.toNat ∧ c.toNat ≤ 90 then Char.ofNat (c.toNat + 32) else c

/-- ASCII uppercase of one character; models `str.upper`. -/
def upperChar (c : Char) : Char :=
  if 97 ≤ c.toNat ∧ c.toNat ≤ 122 then Char.ofNat (c.toNat - 32) else c

/-- Python `s.lower()`. -/
def pyLower (s : String) : String :=
  String.mk (s.toList.map lowerChar)

/-- Python `s.upper()`. -/
def pyUpper (s : String) : String :=
  String.mk (s.toList.map upperChar)

/-- Whitespace in the sense of the Python `str.strip` default and of the
regex whitespace metacharacter. -/
def pySpace (c : Char) : Bool :=
  c == ' ' || c == '\t' || c == '\n' || c == '\x0b' || c == '\x0c' || c == '\r'

/-- Python `s.strip()`: drop whitespace from both ends. -/
def pyStrip (s : String) : String :=
  String.mk (((s.toList.dropWhile pySpace).reverse.dropWhile pySpace).reverse)

/-- First `n` characters of a string, as the Python slice `s[:n]`. -/
def strTake (s : String) (n : Nat) : String :=
  String.mk (s.toList.take n)

/-- Suffix test on character lists. -/
def listSuffixB (suffix s : List Char) : Bool :=
  listPrefixB suffix.reverse s.reverse

/-- Python `s.endswith(suffix)`. -/
def pyEndsWith (s suffix : String) : Bool :=
  listSuffixB suffix.toList s.toList

/-- Replacement scan of Python `s.replace(old, new)` for a nonempty
`old`: replace every occurrence left to right. -/
def replaceAux : Nat → List Char → List Char → List Char → List Char
  | 0, _, _, s => s
  | _ + 1, _, _, [] => []
  | f + 1, old, new, c :: t =>
    if listPrefixB old (c :: t) then new ++ replaceAux f old new ((c :: t).drop old.length)
    else c :: replaceAux f old new t

/-- Python `s.replace(old, new)` for a nonempty `old`. -/
def pyReplace (s old new : String) : String :=
  String.mk (replaceAux (s.toList.length + 1) old.toList new.toList s.toList)

/-- Audit event, mirroring the dictionary written by `log_event` in
backend/main.py: timestamp text, prompt excerpt, score, decision value. -/
structure AuditEvent where
  timestamp : String
  prompt : String
  score : ℚ
  decision : String
deriving DecidableEq, Repr

/-- State of the JSON backing store when `log_event` runs: the file may be
absent, readable with a list of events, or unreadable/corrupt (any
exception raised while reading or decoding it). -/
inductive AuditStore
  | absent
  | ok (data : List AuditEvent)
  | corrupt
deriving DecidableEq, Repr

/-- The happy path of `log_event` in backend/main.py: append the new
event to the data read from the store and persist only the last 20
entries (the Python slice `data[-20:]`). -/
def log_append (data : List AuditEvent) (e : AuditEvent) : List AuditEvent :=
  (data ++ [e]).drop ((data ++ [e]).length - 20)

/-- The function `log_event` of backend/main.py, as a map from the state
of the backing store to the list persisted after the call. A missing
file is read as the empty list; any read failure lands in the exception
handler, which rewrites the store to hold just the new event. -/
def log_event (store : AuditStore) (e : AuditEvent) : List AuditEvent :=
  match store with
  | AuditStore.absent => log_append [] e
  | AuditStore.ok data => log_append data e
  | AuditStore.corrupt => [e]

/-- Repeated appends through `log_event`, starting from an empty store,
with each call reading back what the previous call persisted. -/
def log_event_all (es : List AuditEvent) : List AuditEvent :=
  es.foldl (fun s e => log_event (AuditStore.ok s) e) []

/-- Agent directory record, mirroring the entries of `AGENTS` in
backend/state.py. -/
structure Agent where
  id : String
  name : String
  role : String
  tools : List String
  lastActive : String
  status : String
deriving DecidableEq, Repr

/-- The reference data `AGENTS` of backend/state.py. -/
def AGENTS : List Agent :=
  [ ⟨"ag-01", "CodeAssistant", "Developer", ["Search", "File System", "Code Execution"], "Just now", "Active"⟩
  , ⟨"ag-02", "DataAnalyst", "Analyst", ["Database", "Web Scraping"], "2 mins ago", "Active"⟩
  , ⟨"ag-03", "EmailBot", "Communication", ["Email"], "15 mins ago", "Suspended"⟩
  , ⟨"ag-04", "ResearchBot", "Researcher", ["Search", "Browser"], "5 mins ago", "Active"⟩ ]

/-- Result shape of `get_stats` in backend/state.py. -/
structure Stats where
  totalRequests : Nat
  blockedRequests : Nat
  activeAgents : Nat
  highRiskAlerts : Nat
deriving DecidableEq, Repr

/-- The function `get_stats` of backend/state.py, including the fixed
demo baselines it adds to three of the four counters. -/
def get_stats (logs : List AuditEvent) : Stats :=
  { totalRequests := logs.length + 1420
  , blockedRequests := logs.countP (fun l => l.decision == "BLOCK") + 85
  , activeAgents := AGENTS.countP (fun a => a.status == "Active")
  , highRiskAlerts :=
      logs.countP (fun l => decide ((8 : ℚ)/10 ≤ l.score) && (l.decision == "BLOCK")) + 12 }

/-- The administrative policy flags, mirroring the `POLICIES` dictionary
of backend/state.py. -/
structure Policies where
  promptInjection : Bool
  toolAccess : Bool
  humanApproval : Bool
  dataLeakage : Bool
deriving DecidableEq, Repr

/-- Startup defaults of `POLICIES` in backend/state.py. -/
def POLICIES : Policies :=
  { promptInjection := true, toolAccess := false, humanApproval := true, dataLeakage := true }

/-- The handler `update_policy_api` of backend/main.py: update one flag
by name, or report an unknown-policy error as `none`. -/
def update_policy (p : Policies) (name : String) (value : Bool) : Option Policies :=
  if name == "promptInjection" then some { p with promptInjection := value }
  else if name == "toolAccess" then some { p with toolAccess := value }
  else if name == "humanApproval" then some { p with humanApproval := value }
  else if name == "dataLeakage" then some { p with dataLeakage := value }
  else none

/-- Outcome of calling into an external Python capability: either a
returned value or a raised exception. -/
inductive PyResult (α : Type)
  | ok (a : α)
  | exn
deriving DecidableEq, Repr

/-- Return value of an llm-guard scanner call `scanner.scan(prompt)`:
the sanitized text, the validity flag and the risk score. -/
structure ScanCall where
  sanitized : String
  isValid : Bool
  score : ℚ
deriving DecidableEq, Repr

/-- Shape of the object returned by the LlamaFirewall call: an optional
`risk_score` attribute (absent reads as 0 through `getattr`) and an
optional `action` attribute. -/
structure FwCall where
  riskScoreAttr : Option ℚ
  actionAttr : Option String
deriving DecidableEq, Repr

/-- Reply of the remote Ollama call in `_call_ollama_brain`: the HTTP
round trip may raise (connection error, timeout, or a non-success
status via `raise_for_status`), decoding the body as JSON may raise, or
the decoded object carries an optional `response` field. -/
inductive OllamaReply
  | transportError
  | jsonError
  | ok (field : Option String)
deriving DecidableEq, Repr

/-- Behaviour of every external capability consulted by
`SecurityEngine.evaluate_prompt` on one given prompt. A scanner slot is
`none` when the corresponding scanner object is `None` (llm-guard not
installed or its initialization failed). -/
structure ScannerEnv where
  piScanner : Option (PyResult ScanCall)
  secretsScanner : Option (PyResult ScanCall)
  topicsScanner : Option (PyResult ScanCall)
  fwCall : PyResult FwCall
  ollamaKeySet : Bool
  ollamaReply : OllamaReply
deriving DecidableEq, Repr

/-- Parse a run of decimal digits, returning value, digit count and the
rest of the input. -/
def parseDigits : List Char → Nat × Nat × List Char
  | [] => (0, 0, [])
  | c :: t =>
    if c.isDigit then
      let (v, n, rest) := parseDigits t
      ((c.toNat - 48) * 10 ^ n + v, n + 1, rest)
    else (0, 0, c :: t)

/-- Model of the Python builtin `float` applied to an already stripped
string, for finite decimal literals: optional sign, integer part,
optional fractional part, optional exponent, with at least one digit in
the mantissa. The special spellings accepted by Python that have no
finite rational value (inf, nan) are outside the model. -/
def pyFloat (s : String) : Option ℚ :=
  let cs := s.toList
  let (sign, cs) : ℚ × List Char :=
    match cs with
    | '+' :: t => (1, t)
    | '-' :: t => (-1, t)
    | t => (1, t)
  let (ip, ic, cs) := parseDigits cs
  let (fp, fc, cs) : Nat × Nat × List Char :=
    match cs with
    | '.' :: t => parseDigits t
    | t => (0, 0, t)
  if ic + fc = 0 then none
  else
    let mantissa : ℚ := sign * ((ip : ℚ) + (fp : ℚ) / (10 : ℚ) ^ fc)
    match cs with
    | [] => some mantissa
    | e :: t =>
      if e == 'e' || e == 'E' then
        let (esign, t) : Bool × List Char :=
          match t with
          | '+' :: t2 => (true, t2)
          | '-' :: t2 => (false, t2)
          | t2 => (true, t2)
        let (ev, ec, t) := parseDigits t
        if ec = 0 ∨ t ≠ [] then none
        else if esign then some (mantissa * (10 : ℚ) ^ ev)
        else some (mantissa / (10 : ℚ) ^ ev)
      else none

/-- The method `_call_ollama_brain` of backend/security_engine.py as a
function of the API-key configuration and the remote reply. Without a
key the call is skipped with score 0. A transport error or a JSON
decoding error lands in the exception handler, score 0. Otherwise the
`response` field (defaulting to "0.0" when absent) is stripped and
converted with `float`; a conversion failure yields score 1.0. -/
def call_ollama_brain (apiKeySet : Bool) (reply : OllamaReply) : ℚ :=
  if !apiKeySet then 0
  else
    match reply with
    | OllamaReply.transportError => 0
    | OllamaReply.jsonError => 0
    | OllamaReply.ok field =>
      let responseText := pyStrip (field.getD "0.0")
      match pyFloat responseText with
      | some score => score
      | none => 1

/-- Reason entries appended to the `details` list by `evaluate_prompt`,
as tagged values carrying the data interpolated into the message. -/
inductive Detail
  | promptInjectionDetected (score : ℚ)
  | secretsLeakageDetected
  | bannedTopicDetected
  | llamaFirewallFlag (score : ℚ)
  | ollamaBlock (score : ℚ)
  | fallbackKeywordMatch
deriving DecidableEq, Repr

/-- Message text of one reason entry, as formatted by the code. -/
def Detail.render : Detail → String
  | Detail.promptInjectionDetected s => "Prompt Injection Detected (score: " ++ toString s ++ ")"
  | Detail.secretsLeakageDetected => "Secrets Leakage Detected"
  | Detail.bannedTopicDetected => "Banned Topic Detected"
  | Detail.llamaFirewallFlag s => "LlamaFirewall flag (score: " ++ toString s ++ ")"
  | Detail.ollamaBlock s => "Ollama GLM-5 Block (score: " ++ toString s ++ ")"
  | Detail.fallbackKeywordMatch => "Fallback Keyword Match"

/-- Joining of the details list at the end of `evaluate_prompt`:
`" | ".join(details) if details else "Clean"`. -/
def detail_str (ds : List Detail) : String :=
  if ds = [] then "Clean" else String.intercalate " | " (ds.map Detail.render)

/-- Decision enum of backend/security_engine.py. -/
inductive ScanDecision
  | ALLOW
  | BLOCK
deriving DecidableEq, Repr

/-- Result object of `evaluate_prompt`, with `details` already joined to
its string form as in the code. -/
structure ScanResult where
  score : ℚ
  decision : ScanDecision
  details : String
deriving DecidableEq, Repr

/-- Block 1a of `evaluate_prompt`: the PromptInjection scanner. Runs only
when the scanner object exists; an exception leaves the state unchanged;
an invalid verdict raises the risk to the classifier score and appends a
reason. -/
def pi_stage (env : ScannerEnv) (acc : ℚ × List Detail) : ℚ × List Detail :=
  match env.piScanner with
  | some (PyResult.ok r) =>
    if !r.isValid then (max acc.1 r.score, acc.2 ++ [Detail.promptInjectionDetected r.score])
    else acc
  | _ => acc

/-- Block 1b of `evaluate_prompt`: the Secrets scanner; a finding raises
the risk to the fixed value 0.8. -/
def secrets_stage (env : ScannerEnv) (acc : ℚ × List Detail) : ℚ × List Detail :=
  match env.secretsScanner with
  | some (PyResult.ok r) =>
    if !r.isValid then (max acc.1 (8/10), acc.2 ++ [Detail.secretsLeakageDetected])
    else acc
  | _ => acc

/-- Block 1c of `evaluate_prompt`: the BanTopics scanner; a finding
raises the risk to the fixed value 0.7. -/
def topics_stage (env : ScannerEnv) (acc : ℚ × List Detail) : ℚ × List Detail :=
  match env.topicsScanner with
  | some (PyResult.ok r) =>
    if !r.isValid then (max acc.1 (7/10), acc.2 ++ [Detail.bannedTopicDetected])
    else acc
  | _ => acc

/-- Attribute probe `hasattr(fw_result, "action") and
str(fw_result.action).upper() == "BLOCK"`. -/
def fwActionIsBlock (r : FwCall) : Bool :=
  match r.actionAttr with
  | some a => pyUpper a == "BLOCK"
  | none => false

/-- Block 2 of `evaluate_prompt`: the LlamaFirewall call. The firewall
score is the `risk_score` attribute (default 0), overridden to 1.0 on an
explicit block action; it always enters the running max, and a reason is
recorded only when it exceeds 0.5. An exception leaves the state
unchanged. -/
def firewall_stage (env : ScannerEnv) (acc : ℚ × List Detail) : ℚ × List Detail :=
  match env.fwCall with
  | PyResult.exn => acc
  | PyResult.ok r =>
    let fwScore := if fwActionIsBlock r then 1 else r.riskScoreAttr.getD 0
    ( max acc.1 fwScore
    , if 1/2 < fwScore then acc.2 ++ [Detail.llamaFirewallFlag fwScore] else acc.2 )

/-- Block 3 of `evaluate_prompt`: the Ollama cloud brain. Its score is
folded into the running max only when it exceeds 0.5. -/
def brain_stage (env : ScannerEnv) (acc : ℚ × List Detail) : ℚ × List Detail :=
  let ollamaScore := call_ollama_brain env.ollamaKeySet env.ollamaReply
  if 1/2 < ollamaScore then (max acc.1 ollamaScore, acc.2 ++ [Detail.ollamaBlock ollamaScore])
  else acc

/-- The fixed keyword list of the fallback check. -/
def bad_words : List String :=
  ["ignore previous", "system prompt", "bypass", "jailbreak"]

/-- Test `any(bw in prompt.lower() for bw in bad_words)`. -/
def has_bad_word (prompt : String) : Bool :=
  bad_words.any (fun bw => strInB bw (pyLower prompt))

/-- Block 4 of `evaluate_prompt`: the keyword fallback, which fires only
when the accumulated risk is exactly 0 and a keyword occurs in the
lowercased prompt, raising the risk to 0.9. -/
def fallback_stage (prompt : String) (acc : ℚ × List Detail) : ℚ × List Detail :=
  if acc.1 = 0 ∧ has_bad_word prompt = true then
    (max acc.1 (9/10), acc.2 ++ [Detail.fallbackKeywordMatch])
  else acc

/-- The risk accumulation of `evaluate_prompt`: the four blocks run in
program order starting from risk 0 and an empty details list. -/
def evaluate_core (env : ScannerEnv) (prompt : String) : ℚ × List Detail :=
  fallback_stage prompt
    (brain_stage env
      (firewall_stage env
        (topics_stage env
          (secrets_stage env
            (pi_stage env (0, []))))))

/-- The method `SecurityEngine.evaluate_prompt` of
backend/security_engine.py: accumulate the risk score and details, then
decide BLOCK exactly when the score reaches 0.5 and join the details. -/
def evaluate_prompt (env : ScannerEnv) (prompt : String) : ScanResult :=
  let c := evaluate_core env prompt
  { score := c.1
  , decision := if (1/2 : ℚ) ≤ c.1 then ScanDecision.BLOCK else ScanDecision.ALLOW
  , details := detail_str c.2 }

/-- Regular expression abstract syntax covering the constructs used by
the patterns of backend/interceptor.py: character classes, sequencing,
ordered alternation, greedy and lazy option, greedy and lazy star over a
character class, greedy counted repetition, and the word boundary. -/
inductive Pat
  | eps
  | cls (p : Char → Bool)
  | seq (a b : Pat)
  | alt (a b : Pat)
  | opt (a : Pat) (greedy : Bool)
  | starC (p : Char → Bool) (greedy : Bool)
  | rep (a : Pat) (lo hi : Nat)
  | bnd

/-- Word character in the sense of the regex metacharacter used by the
word boundary: ASCII letters, digits, or the underscore. -/
def isWordChar (c : Char) : Bool :=
  c.isAlphanum || c == '_'

/-- Word boundary test between the previous character (none at the start
of the text) and the rest of the input. -/
def atBoundary (prev : Option Char) (s : List Char) : Bool :=
  let pw := match prev with
    | some c => isWordChar c
    | none => false
  let nw := match s with
    | c :: _ => isWordChar c
    | [] => false
  pw != nw

/-- Backtracking matcher in continuation-passing style, following the
search order of the Python `re` engine: alternatives left first, greedy
quantifiers longest first, lazy quantifiers shortest first, counted
repetition highest count first. The continuation receives the previous
character and the remaining input; the first branch on which it
succeeds wins. The fuel bounds the depth of one search path (pattern
size plus characters consumed), not the breadth of backtracking. -/
def matchK : Nat → Pat → Option Char → List Char →
    (Option Char → List Char → Option (List Char)) → Option (List Char)
  | 0, _, _, _, _ => none
  | _ + 1, Pat.eps, prev, s, k => k prev s
  | _ + 1, Pat.cls p, _, s, k =>
    match s with
    | [] => none
    | c :: rest => if p c then k (some c) rest else none
  | f + 1, Pat.seq a b, prev, s, k =>
    matchK f a prev s (fun p2 s2 => matchK f b p2 s2 k)
  | f + 1, Pat.alt a b, prev, s, k =>
    (matchK f a prev s k).orElse (fun _ => matchK f b prev s k)
  | f + 1, Pat.opt a g, prev, s, k =>
    if g then (matchK f a prev s k).orElse (fun _ => k prev s)
    else (k prev s).orElse (fun _ => matchK f a prev s k)
  | f + 1, Pat.starC p g, prev, s, k =>
    let more := fun (_ : Unit) =>
      match s with
      | c :: rest => if p c then matchK f (Pat.starC p g) (some c) rest k else none
      | [] => none
    if g then (more ()).orElse (fun _ => k prev s)
    else (k prev s).orElse more
  | f + 1, Pat.rep a lo hi, prev, s, k =>
    match lo, hi with
    | 0, 0 => k prev s
    | 0, h + 1 =>
      (matchK f a prev s (fun p2 s2 => matchK f (Pat.rep a 0 h) p2 s2 k)).orElse
        (fun _ => k prev s)
    | _ + 1, 0 => none
    | l + 1, h + 1 =>
      matchK f a prev s (fun p2 s2 => matchK f (Pat.rep a l h) p2 s2 k)
  | _ + 1, Pat.bnd, prev, s, k => if atBoundary prev s then k prev s else none

/-- Length of the match of `r` anchored at the current position, if any,
given the previous character of the original text. -/
def matchHere (r : Pat) (prev : Option Char) (s : List Char) : Option Nat :=
  match matchK (s.length + 200) r prev s (fun _ rest => some rest) with
  | some rest => some (s.length - rest.length)
  | none => none

/-- Scan of `re.findall`: walk the text left to right, at each position
take the match found there if any, record it, and resume right after it
(one character further on an empty match). The previous character is
always the one of the original text, as the Python engine does. -/
def findallAux : Nat → Pat → Option Char → List Char → List (List Char)
  | 0, _, _, _ => []
  | f + 1, r, prev, s =>
    match matchHere r prev s with
    | some 0 =>
      match s with
      | [] => [[]]
      | c :: t => [] :: findallAux f r (some c) t
    | some (n + 1) =>
      let m := s.take (n + 1)
      m :: findallAux f r m.getLast? (s.drop (n + 1))
    | none =>
      match s with
      | [] => []
      | c :: t => findallAux f r (some c) t

/-- Scan of `re.sub`: same traversal as `findallAux`, but rebuild the
text with each match replaced by `repl`. -/
def subAux : Nat → Pat → List Char → Option Char → List Char → List Char
  | 0, _, _, _, s => s
  | f + 1, r, repl, prev, s =>
    match matchHere r prev s with
    | some 0 =>
      match s with
      | [] => repl
      | c :: t => repl ++ c :: subAux f r repl (some c) t
    | some (n + 1) =>
      repl ++ subAux f r repl (s.take (n + 1)).getLast? (s.drop (n + 1))
    | none =>
      match s with
      | [] => []
      | c :: t => c :: subAux f r repl (some c) t

/-- Python `re.findall(pattern, text)` restricted to patterns without
capturing groups: the list of matched substrings. -/
def pyFindall (r : Pat) (s : String) : List String :=
  (findallAux (s.length + 1) r none s.toList).map (fun cs => String.mk cs)

/-- Python `re.sub(pattern, repl, text)` for a literal replacement. -/
def pySub (r : Pat) (repl : String) (s : String) : String :=
  String.mk (subAux (s.length + 1) r repl.toList none s.toList)

/-- Literal character pattern. -/
def chrP (c : Char) : Pat :=
  Pat.cls (fun x => x == c)

/-- Case-insensitive literal character pattern; `c` is given lowercase. -/
def chrI (c : Char) : Pat :=
  Pat.cls (fun x => lowerChar x == c)

/-- Sequencing of a list of patterns. -/
def seqs : List Pat → Pat
  | [] => Pat.eps
  | [a] => a
  | a :: t => Pat.seq a (seqs t)

/-- Case-insensitive literal word. -/
def strI (w : String) : Pat :=
  seqs (w.toList.map chrI)

/-- Greedy plus over a character class. -/
def plusC (p : Char → Bool) : Pat :=
  Pat.seq (Pat.cls p) (Pat.starC p true)

/-- Exactly `n` characters of a class. -/
def repC (p : Char → Bool) (n : Nat) : Pat :=
  Pat.rep (Pat.cls p) n n

/-- The separator class of the credit card pattern: space or dash. -/
def ccSep (c : Char) : Bool :=
  c == ' ' || c == '-'

/-- The separator class `[-.\s]` of the SSN and phone patterns. -/
def dashDotSpace (c : Char) : Bool :=
  c == '-' || c == '.' || pySpace c

/-- CREDIT_CARD_PATTERN of backend/interceptor.py: a word-bounded run of
13 to 16 digits, each digit followed by a lazy run of spaces or dashes. -/
def CREDIT_CARD_PATTERN : Pat :=
  seqs [ Pat.bnd
       , Pat.rep (Pat.seq (Pat.cls Char.isDigit) (Pat.starC ccSep false)) 13 16
       , Pat.bnd ]

/-- SSN_PATTERN of backend/interceptor.py. -/
def SSN_PATTERN : Pat :=
  seqs [ Pat.bnd
       , repC Char.isDigit 3, Pat.opt (Pat.cls dashDotSpace) true
       , repC Char.isDigit 2, Pat.opt (Pat.cls dashDotSpace) true
       , repC Char.isDigit 4
       , Pat.bnd ]

/-- Local-part class of the email pattern. -/
def emailLocal (c : Char) : Bool :=
  c.isAlphanum || c == '.' || c == '_' || c == '%' || c == '+' || c == '-'

/-- Domain class of the email pattern. -/
def emailDomain (c : Char) : Bool :=
  c.isAlphanum || c == '.' || c == '-'

/-- Top-level-domain class of the email pattern; the source character
class spells `[A-Z|a-z]`, so the bar is a member. -/
def emailTld (c : Char) : Bool :=
  c.isAlpha || c == '|'

/-- EMAIL_PATTERN of backend/interceptor.py. -/
def EMAIL_PATTERN : Pat :=
  seqs [ Pat.bnd
       , plusC emailLocal, chrP '@', plusC emailDomain, chrP '.'
       , Pat.cls emailTld, Pat.cls emailTld, Pat.starC emailTld true
       , Pat.bnd ]

/-- PHONE_PATTERN of backend/interceptor.py. -/
def PHONE_PATTERN : Pat :=
  seqs [ Pat.bnd
       , Pat.opt (seqs [Pat.opt (chrP '+') true, chrP '1', Pat.opt (Pat.cls dashDotSpace) true]) true
       , Pat.opt (chrP '(') true
       , repC Char.isDigit 3
       , Pat.opt (chrP ')') true
       , Pat.opt (Pat.cls dashDotSpace) true
       , repC Char.isDigit 3
       , Pat.opt (Pat.cls dashDotSpace) true
       , repC Char.isDigit 4
       , Pat.bnd ]

/-- Amount class `[\d,]` of the transfer pattern. -/
def digitComma (c : Char) : Bool :=
  c.isDigit || c == ','

/-- Recipient-token class `[A-Za-z0-9]` of the transfer pattern. -/
def alnumAscii (c : Char) : Bool :=
  c.isAlphanum

/-- ACCOUNT_TRANSFER_PATTERN of backend/interceptor.py, matched with the
IGNORECASE flag: an instruction verb, whitespace, a dollar amount with
optional cents, whitespace, the word to, whitespace, and a recipient
token. -/
def ACCOUNT_TRANSFER_PATTERN : Pat :=
  seqs [ Pat.alt (strI "send") (Pat.alt (strI "transfer") (strI "wire"))
       , plusC pySpace
       , chrP '$'
       , plusC digitComma
       , Pat.opt (seqs [chrP '.', Pat.cls Char.isDigit, Pat.cls Char.isDigit]) true
       , plusC pySpace
       , strI "to"
       , plusC pySpace
       , plusC alnumAscii ]

/-- A sensitive-data finding, mirroring the dictionaries built by
`detect_sensitive_data`. -/
structure Finding where
  type : String
  value : String
deriving DecidableEq, Repr

/-- The marker constant of backend/interceptor.py. -/
def REDACTED_MARKER : String := "[REDACTED]"

/-- Last `n` characters of a string, as the Python slice `s[-n:]`. -/
def takeRightStr (s : String) (n : Nat) : String :=
  String.mk (s.toList.drop (s.toList.length - n))

/-- The segment after the last at sign, as the Python expression
`s.split(at)[-1]`: the whole string when no at sign occurs. -/
def lastAtSegment (s : String) : String :=
  String.mk ((s.toList.reverse.takeWhile (fun c => !(c == '@'))).reverse)

/-- The function `detect_sensitive_data` of backend/interceptor.py: run
each pattern over the full text and build one masked finding per match,
with the credit-card matches additionally filtered to those containing
at least 13 digits. -/
def detect_sensitive_data (text : String) : List Finding :=
  let ccEntries := (pyFindall CREDIT_CARD_PATTERN text).filterMap (fun m =>
    let digitsOnly := m.toList.filter Char.isDigit
    if 13 ≤ digitsOnly.length then
      some { type := "CREDIT_CARD", value := strTake m 6 ++ "***" ++ takeRightStr m 4 }
    else none)
  let ssnEntries := (pyFindall SSN_PATTERN text).map (fun m =>
    { type := "SSN", value := "***-**-" ++ takeRightStr m 4 })
  let emailEntries := (pyFindall EMAIL_PATTERN text).map (fun m =>
    { type := "EMAIL", value := strTake m 2 ++ "***@" ++ lastAtSegment m })
  let phoneEntries := (pyFindall PHONE_PATTERN text).map (fun m =>
    { type := "PHONE", value := "***-***-" ++ takeRightStr m 4 })
  let transferEntries := (pyFindall ACCOUNT_TRANSFER_PATTERN text).map (fun m =>
    { type := "UNAUTHORIZED_TRANSFER", value := m })
  ccEntries ++ ssnEntries ++ emailEntries ++ phoneEntries ++ transferEntries

/-- The function `redact_sensitive_data` of backend/interceptor.py: five
substitutions applied in sequence, each replacing every match with the
kind-tagged marker. -/
def redact_sensitive_data (text : String) : String :=
  let r1 := pySub CREDIT_CARD_PATTERN (REDACTED_MARKER ++ "_CC") text
  let r2 := pySub SSN_PATTERN (REDACTED_MARKER ++ "_SSN") r1
  let r3 := pySub EMAIL_PATTERN (REDACTED_MARKER ++ "_EMAIL") r2
  let r4 := pySub PHONE_PATTERN (REDACTED_MARKER ++ "_PHONE") r3
  pySub ACCOUNT_TRANSFER_PATTERN (REDACTED_MARKER ++ "_TRANSFER") r4

/-- Result object of the interceptor, with the defaults of its
constructor. -/
structure InterceptorResult where
  allowed : Bool
  redacted_content : String := ""
  blocked_reason : String := ""
  detected_items : List Finding := []
deriving DecidableEq, Repr

/-- The function `intercept_and_clean` of backend/interceptor.py: detect
everything, block outright on any unauthorized-transfer finding, and
otherwise allow with the redacted text. -/
def intercept_and_clean (content : String) : InterceptorResult :=
  if !((detect_sensitive_data content).filter
      (fun d => d.type == "UNAUTHORIZED_TRANSFER")).isEmpty then
    { allowed := false
    , blocked_reason := "Unauthorized transfer request detected"
    , detected_items := detect_sensitive_data content }
  else
    { allowed := true
    , redacted_content := redact_sensitive_data content
    , detected_items := detect_sensitive_data content }

/-- Environment configuration read by `BifrostGateway.evaluate` in
backend/bifrost.py, with the defaults of the `os.getenv` calls already
applied. -/
structure BifrostEnv where
  ollamaEndpoint : String
  ollamaApiKey : String
  minimaxApiKey : String
deriving DecidableEq, Repr

/-- Parameters of one `litellm.completion` call. The litellm response
cache keys on the call parameters, so identical parameter tuples are
served from the cache. -/
structure CallParams where
  model : String
  prompt : String
  apiBase : String
  apiKey : String
  temperature : ℚ
deriving DecidableEq, Repr

/-- The in-process litellm response cache, as an association list from
call parameters to cached text. -/
def BifrostCache : Type := List (CallParams × String)

/-- Cache lookup on the full parameter tuple. -/
def cacheLookup (cache : BifrostCache) (p : CallParams) : Option String :=
  (cache.find? (fun e => decide (e.1 = p))).map (fun e => e.2)

/-- Model of `litellm.completion(..., caching=True)` on the successful
path: serve an identical request from the cache without touching the
provider, otherwise invoke the provider and store the response. The
returned flag records whether the provider was invoked. -/
def litellm_completion (provider : CallParams → String) (cache : BifrostCache)
    (p : CallParams) : String × BifrostCache × Bool :=
  match cacheLookup cache p with
  | some t => (t, cache, false)
  | none =>
    let t := provider p
    (t, (p, t) :: cache, true)

/-- Resolution performed by `BifrostGateway.evaluate` before the litellm
call: per model alias, the provider model name, the api base (with the
endpoint-suffix rewrites of the glm branch), the api key, and the
hard-coded temperature 0.7. An alias outside the two handled branches
leaves the local variables unbound and raises. -/
def bifrost_params (env : BifrostEnv) (prompt model_name : String) :
    Except String CallParams :=
  if model_name == "glm-5:cloud" then
    Except.ok { model := "ollama/glm-5:cloud", prompt := prompt
              , apiBase :=
                  if pyEndsWith env.ollamaEndpoint "/api/generate" then
                    pyReplace env.ollamaEndpoint "/api/generate" ""
                  else if pyEndsWith env.ollamaEndpoint "/v1" then
                    pyReplace env.ollamaEndpoint "/v1" ""
                  else env.ollamaEndpoint
              , apiKey := env.ollamaApiKey, temperature := 7/10 }
  else if model_name == "m2.5" then
    Except.ok { model := "MiniMax-M2.5", prompt := prompt, apiBase := "https://api.minimax.io/v1"
              , apiKey := env.minimaxApiKey, temperature := 7/10 }
  else
    Except.error "local variable referenced before assignment"

/-- The static method `BifrostGateway.evaluate` of backend/bifrost.py on
the successful provider path: resolve the alias and make one cached
completion call. -/
def bifrost_evaluate (env : BifrostEnv) (provider : CallParams → String)
    (cache : BifrostCache) (prompt model_name : String) :
    Except String (String × BifrostCache × Bool) :=
  (bifrost_params env prompt model_name).map (litellm_completion provider cache)

/-- Request body of the proxy endpoint, with its declared fields
including the temperature. -/
structure BifrostRequest where
  model : String := "glm-5:cloud"
  prompt : String
  temperature : ℚ := 7/10
deriving DecidableEq, Repr

/-- The handler `bifrost_chat_proxy` of backend/bifrost.py: forward the
prompt and model of the request to the gateway (the temperature field
of the request is not forwarded), and map an exception to a 500 error.
The static fields of the OpenAI response envelope are omitted; the
returned text is the content placed in the envelope. -/
def bifrost_chat_proxy (env : BifrostEnv) (provider : CallParams → String)
    (cache : BifrostCache) (req : BifrostRequest) :
    Except (Nat × String) (String × BifrostCache × Bool) :=
  match bifrost_evaluate env provider cache req.prompt req.model with
  | Except.ok r => Except.ok r
  | Except.error e => Except.error (500, e)

/-- Score the injection adapter reports, in the adapter abstraction of
the specification: the classifier score on a flagged prompt, 0
otherwise and on any internal failure. -/
def pi_contrib (env : ScannerEnv) : ℚ :=
  match env.piScanner with
  | some (PyResult.ok r) => if r.isValid then 0 else r.score
  | _ => 0

/-- Score the secrets adapter reports: the fixed value 0.8 on a flagged
prompt. -/
def secrets_contrib (env : ScannerEnv) : ℚ :=
  match env.secretsScanner with
  | some (PyResult.ok r) => if r.isValid then 0 else 8/10
  | _ => 0

/-- Score the banned-topic adapter reports: the fixed value 0.7 on a
flagged prompt. -/
def topics_contrib (env : ScannerEnv) : ℚ :=
  match env.topicsScanner with
  | some (PyResult.ok r) => if r.isValid then 0 else 7/10
  | _ => 0

/-- Score the external-firewall adapter reports: 1.0 on an explicit
block action, the risk-score attribute otherwise, 0 on failure. -/
def firewall_contrib (env : ScannerEnv) : ℚ :=
  match env.fwCall with
  | PyResult.ok r => if fwActionIsBlock r then 1 else r.riskScoreAttr.getD 0
  | PyResult.exn => 0

/-- Score the remote-brain adapter reports: the outcome of
`_call_ollama_brain`. -/
def brain_score (env : ScannerEnv) : ℚ :=
  call_ollama_brain env.ollamaKeySet env.ollamaReply

/-- The risk score accumulated by `evaluate_prompt` over the first five
adapters, before the keyword fallback, written as one maximum: every
adapter contribution enters except the remote-brain score, which only
enters when it exceeds 0.5. -/
def risk_before_fallback (env : ScannerEnv) : ℚ :=
  max (max (max (max (max 0 (pi_contrib env)) (secrets_contrib env)) (topics_contrib env))
    (firewall_contrib env))
    (if 1/2 < brain_score env then brain_score env else 0)

/-- Reasons the injection stage records. -/
def pi_reasons (env : ScannerEnv) : List Detail :=
  match env.piScanner with
  | some (PyResult.ok r) => if r.isValid then [] else [Detail.promptInjectionDetected r.score]
  | _ => []

/-- Reasons the secrets stage records. -/
def secrets_reasons (env : ScannerEnv) : List Detail :=
  match env.secretsScanner with
  | some (PyResult.ok r) => if r.isValid then [] else [Detail.secretsLeakageDetected]
  | _ => []

/-- Reasons the banned-topic stage records. -/
def topics_reasons (env : ScannerEnv) : List Detail :=
  match env.topicsScanner with
  | some (PyResult.ok r) => if r.isValid then [] else [Detail.bannedTopicDetected]
  | _ => []

/-- Reasons the firewall stage records: only scores above 0.5 are
flagged. -/
def firewall_reasons (env : ScannerEnv) : List Detail :=
  match env.fwCall with
  | PyResult.ok r =>
    let fwScore := if fwActionIsBlock r then 1 else r.riskScoreAttr.getD 0
    if 1/2 < fwScore then [Detail.llamaFirewallFlag fwScore] else []
  | PyResult.exn => []

/-- Reasons the remote-brain stage records: only scores above 0.5. -/
def brain_reasons (env : ScannerEnv) : List Detail :=
  if 1/2 < brain_score env then [Detail.ollamaBlock (brain_score env)] else []

/-- Reasons the keyword fallback records. -/
def fallback_reasons (env : ScannerEnv) (prompt : String) : List Detail :=
  if risk_before_fallback env = 0 ∧ has_bad_word prompt = true then
    [Detail.fallbackKeywordMatch]
  else []

/-- Modelled from the spec: the Aggregator scoring rule as section 4.3
states it, the maximum over the scores returned by all six Scanner
Adapters, each adapter scoring as section 4.2 describes it; the keyword
fallback adapter yields 0.9 exactly when every other adapter returned
score 0 and a keyword occurs. Written to compare the stated rule against
`evaluate_prompt`; the code under src/ remains the authority. -/
def spec_aggregate_score (env : ScannerEnv) (prompt : String) : ℚ :=
  let keywordScore : ℚ :=
    if (pi_contrib env = 0 ∧ secrets_contrib env = 0 ∧ topics_contrib env = 0 ∧
        firewall_contrib env = 0 ∧ brain_score env = 0) ∧ has_bad_word prompt = true then 9/10
    else 0
  [ pi_contrib env, secrets_contrib env, topics_contrib env, firewall_contrib env
  , brain_score env, keywordScore ].foldr max 0

/-- The engine run in a process whose policy flags hold a given value:
`evaluate_prompt` reads none of them, which this wrapper makes
explicit. -/
def evaluate_prompt_under (ps : Policies) (env : ScannerEnv) (prompt : String) : ScanResult :=
  evaluate_prompt env prompt

/-- Concrete capability environment in which every local scanner is
unavailable, the firewall call raises, and the remote brain replies with
the verdict text 0.4. -/
def envBrainLow : ScannerEnv :=
  { piScanner := none, secretsScanner := none, topicsScanner := none
  , fwCall := PyResult.exn, ollamaKeySet := true
  , ollamaReply := OllamaReply.ok (some "0.4") }

/-- Concrete capability environment in which every capability is silent:
no scanner objects, a raising firewall call, and no API key for the
remote brain. -/
def envSilent : ScannerEnv :=
  { piScanner := none, secretsScanner := none, topicsScanner := none
  , fwCall := PyResult.exn, ollamaKeySet := false
  , ollamaReply := OllamaReply.transportError }

/-- Concrete router environment for the cache experiments. -/
def demoBifrostEnv : BifrostEnv :=
  { ollamaEndpoint := "http://localhost:11434", ollamaApiKey := "", minimaxApiKey := "" }

/-- Concrete provider that answers every call with a fixed text. -/
def demoProvider : CallParams → String :=
  fun p => "echo " ++ p.prompt

/-- The call parameters the gateway builds for a glm-5:cloud request
with prompt hi in the demo environment. -/
def demoParams : CallParams :=
  { model := "ollama/glm-5:cloud", prompt := "hi", apiBase := "http://localhost:11434"
  , apiKey := "", temperature := 7/10 }

/-- Concrete capability environment in which only the firewall reports:
its risk-score attribute reads 0.6 and there is no action attribute. -/
def envFwMedium : ScannerEnv :=
  { piScanner := none, secretsScanner := none, topicsScanner := none
  , fwCall := PyResult.ok { riskScoreAttr := some (6/10), actionAttr := none }
  , ollamaKeySet := false, ollamaReply := OllamaReply.transportError }

theorem log_append_shift (l : List AuditEvent) (e : AuditEvent) :
    log_append (l.drop (l.length - 20)) e = (l ++ [e]).drop ((l ++ [e]).length - 20) := by
  by_cases h : l.length ≤ 20
  · have h0 : l.length - 20 = 0 := Nat.sub_eq_zero_of_le h
    rw [h0, List.drop_zero]
    rfl
  · push_neg at h
    have hd : (l.drop (l.length - 20)).length = 20 := by
      rw [List.length_drop]; omega
    unfold log_append
    rw [List.length_append, hd, List.length_append, List.length_singleton]
    have h21 : 20 + 1 - 20 = 1 := by omega
    rw [h21]
    rw [List.drop_append_of_le_length (by omega : 1 ≤ (l.drop (l.length - 20)).length)]
    rw [List.drop_drop]
    rw [List.drop_append_of_le_length (by omega : l.length + 1 - 20 ≤ l.length)]
    congr 2
    omega

theorem log_event_foldl (es : List AuditEvent) : ∀ acc : List AuditEvent,
    es.foldl (fun s e => log_event (AuditStore.ok s) e) (acc.drop (acc.length - 20))
      = (acc ++ es).drop ((acc ++ es).length - 20) := by
  induction es with
  | nil => intro acc; simp
  | cons e es ih =>
    intro acc
    rw [List.foldl_cons]
    show es.foldl (fun s e => log_event (AuditStore.ok s) e)
        (log_append (acc.drop (acc.length - 20)) e) = _
    rw [log_append_shift acc e]
    have h := ih (acc ++ [e])
    rw [List.append_assoc] at h
    simpa using h

/-- Claim C5: every sequence of appends through the audit log, starting
from an empty store, leaves exactly the most recently appended events in
arrival order, never more than 20; appending 25 events keeps the last
20 and drops the oldest 5. -/
theorem audit_log_capacity_fifo (es : List AuditEvent) :
    log_event_all es = es.drop (es.length - 20) ∧ (log_event_all es).length ≤ 20 := by
  have h : log_event_all es = es.drop (es.length - 20) := by
    have h0 := log_event_foldl es []
    simpa [log_event_all] using h0
  refine ⟨h, ?_⟩
  rw [h, List.length_drop]
  omega

/-- Claim C6: when the backing store is unreadable or corrupt, the
append resets the store to exactly the single new event; the recovery is
total, so no failure reaches the caller. -/
theorem audit_append_recovers_from_corrupt (e : AuditEvent) :
    log_event AuditStore.corrupt e = [e] := rfl

/-- Claim C1: for every capability environment and prompt, the decision
of the Aggregator is BLOCK exactly when the aggregated score is at least
0.5, the boundary score 0.5 included. -/
theorem aggregator_blocked_iff_half (env : ScannerEnv) (prompt : String) :
    (evaluate_prompt env prompt).decision = ScanDecision.BLOCK ↔
      (1/2 : ℚ) ≤ (evaluate_prompt env prompt).score := by
  simp only [evaluate_prompt]
  split_ifs with h
  · simpa using h
  · simpa using h

/-- Claim C3: the remote-brain adapter scores 1.0 whenever a verdict
text is received that does not convert to a floating-point number, and
scores 0 whenever the call fails with a transport or timeout error. -/
theorem remote_brain_fail_modes (field : Option String) (k : Bool) :
    (pyFloat (pyStrip (field.getD "0.0")) = none →
        call_ollama_brain true (OllamaReply.ok field) = 1)
  ∧ call_ollama_brain k OllamaReply.transportError = 0 := by
  constructor
  · intro h
    simp [call_ollama_brain, h]
  · cases k <;> simp [call_ollama_brain]

theorem remote_brain_fail_modes_witness :
    call_ollama_brain true (OllamaReply.ok (some "banana")) = 1 ∧
    call_ollama_brain true OllamaReply.transportError = 0 :=
  ⟨(remote_brain_fail_modes (some "banana") true).1 (by decide),
   (remote_brain_fail_modes (some "banana") true).2⟩

/-- Claim C8, counterexample: on an empty log the stats view reports
1420 total requests, not the count of events in the log, which is 0. -/
theorem stats_counts_counterexample :
    (get_stats []).totalRequests ≠ ([] : List AuditEvent).length := by decide

/-- Claim C8, amended: the stats view returns the event count, the
blocked count and the high-risk count each raised by a fixed demo
baseline (1420, 85 and 12), and the exact count of Active agents. -/
theorem stats_view_amended (logs : List AuditEvent) :
    get_stats logs =
      { totalRequests := logs.length + 1420
      , blockedRequests := (logs.filter (fun l => l.decision == "BLOCK")).length + 85
      , activeAgents := (AGENTS.filter (fun a => a.status == "Active")).length
      , highRiskAlerts :=
          (logs.filter (fun l => decide ((8 : ℚ)/10 ≤ l.score) && (l.decision == "BLOCK"))).length
            + 12 } := by
  simp [get_stats, List.countP_eq_length_filter]

/-- Claim C10: the outcome of the Aggregator is identical under any two
assignments of the administrative policy flags; no Scanner Adapter nor
the Aggregator reads them. -/
theorem policies_do_not_influence_scan (p q : Policies) (env : ScannerEnv) (prompt : String) :
    evaluate_prompt_under p env prompt = evaluate_prompt_under q env prompt := rfl

theorem pi_stage_eq (env : ScannerEnv) (acc : ℚ × List Detail) (h : 0 ≤ acc.1) :
    pi_stage env acc = (max acc.1 (pi_contrib env), acc.2 ++ pi_reasons env) := by
  unfold pi_stage pi_contrib pi_reasons
  cases hp : env.piScanner with
  | none => simp [max_eq_left h]
  | some pr =>
    cases pr with
    | exn => simp [max_eq_left h]
    | ok r => cases hv : r.isValid <;> simp [hv, max_eq_left h]

theorem secrets_stage_eq (env : ScannerEnv) (acc : ℚ × List Detail) (h : 0 ≤ acc.1) :
    secrets_stage env acc = (max acc.1 (secrets_contrib env), acc.2 ++ secrets_reasons env) := by
  unfold secrets_stage secrets_contrib secrets_reasons
  cases hp : env.secretsScanner with
  | none => simp [max_eq_left h]
  | some pr =>
    cases pr with
    | exn => simp [max_eq_left h]
    | ok r => cases hv : r.isValid <;> simp [hv, max_eq_left h]

theorem topics_stage_eq (env : ScannerEnv) (acc : ℚ × List Detail) (h : 0 ≤ acc.1) :
    topics_stage env acc = (max acc.1 (topics_contrib env), acc.2 ++ topics_reasons env) := by
  unfold topics_stage topics_contrib topics_reasons
  cases hp : env.topicsScanner with
  | none => simp [max_eq_left h]
  | some pr =>
    cases pr with
    | exn => simp [max_eq_left h]
    | ok r => cases hv : r.isValid <;> simp [hv, max_eq_left h]

theorem firewall_stage_eq (env : ScannerEnv) (acc : ℚ × List Detail) (h : 0 ≤ acc.1) :
    firewall_stage env acc = (max acc.1 (firewall_contrib env), acc.2 ++ firewall_reasons env) := by
  unfold firewall_stage firewall_contrib firewall_reasons
  cases hp : env.fwCall with
  | exn => simp [max_eq_left h]
  | ok r =>
    by_cases hb : (2⁻¹ : ℚ) < (if fwActionIsBlock r then 1 else r.riskScoreAttr.getD 0)
    · simp [hb]
    · simp [hb]

theorem brain_stage_eq (env : ScannerEnv) (acc : ℚ × List Detail) (h : 0 ≤ acc.1) :
    brain_stage env acc =
      ( max acc.1 (if 1/2 < brain_score env then brain_score env else 0)
      , acc.2 ++ brain_reasons env ) := by
  unfold brain_stage brain_reasons brain_score
  by_cases hb : (2⁻¹ : ℚ) < call_ollama_brain env.ollamaKeySet env.ollamaReply
  · simp [hb]
  · simp [hb, max_eq_left h]

set_option maxHeartbeats 1000000 in
theorem evaluate_core_eq (env : ScannerEnv) (prompt : String) :
    evaluate_core env prompt =
      ( if risk_before_fallback env = 0 ∧ has_bad_word prompt = true then (9 : ℚ)/10
        else risk_before_fallback env
      , pi_reasons env ++ secrets_reasons env ++ topics_reasons env ++ firewall_reasons env
          ++ brain_reasons env ++ fallback_reasons env prompt ) := by
  have n1 : (0 : ℚ) ≤ max 0 (pi_contrib env) := le_max_left 0 _
  have n2 : (0 : ℚ) ≤ max (max 0 (pi_contrib env)) (secrets_contrib env) :=
    le_trans n1 (le_max_left _ _)
  have n3 : (0 : ℚ) ≤ max (max (max 0 (pi_contrib env)) (secrets_contrib env))
      (topics_contrib env) := le_trans n2 (le_max_left _ _)
  have n4 : (0 : ℚ) ≤ max (max (max (max 0 (pi_contrib env)) (secrets_contrib env))
      (topics_contrib env)) (firewall_contrib env) := le_trans n3 (le_max_left _ _)
  unfold evaluate_core
  rw [pi_stage_eq env (0, []) (le_refl 0)]
  rw [secrets_stage_eq env _ n1]
  rw [topics_stage_eq env _ n2]
  rw [firewall_stage_eq env _ n3]
  rw [brain_stage_eq env _ n4]
  have hR : max (max (max (max (max (0 : ℚ) (pi_contrib env)) (secrets_contrib env))
      (topics_contrib env)) (firewall_contrib env))
      (if 1/2 < brain_score env then brain_score env else 0) = risk_before_fallback env := rfl
  unfold fallback_stage fallback_reasons
  rw [hR]
  split_ifs with hc
  · rw [hc.1, max_eq_right (by norm_num : (0 : ℚ) ≤ 9/10)]
    simp
  · simp

/-- Claim C2, counterexample: with every local scanner unavailable, a
raising firewall call and a remote-brain verdict of 0.4, the Aggregator
returns score 0, while the maximum over all adapter scores as the claim
states it is 0.4: the remote-brain score is dropped whenever it does
not exceed 0.5, so the aggregate is not the stated maximum. -/
theorem aggregator_max_counterexample :
    (evaluate_prompt envBrainLow "hello").score ≠ spec_aggregate_score envBrainLow "hello" := by
  with_unfolding_all decide

/-- Claim C2, amended: the Aggregator score is the maximum of the
adapter contributions, where the remote-brain score enters only when it
exceeds 0.5 and the keyword fallback raises a zero aggregate to 0.9 on
a keyword hit; the reasons are collected in invocation order; and when
no reason was produced and the score is 0 the joined reason text is
Clean. -/
theorem aggregator_score_reasons_amended (env : ScannerEnv) (prompt : String) :
    ((evaluate_prompt env prompt).score =
        if risk_before_fallback env = 0 ∧ has_bad_word prompt = true then (9 : ℚ)/10
        else risk_before_fallback env)
  ∧ (evaluate_core env prompt).2 =
      pi_reasons env ++ secrets_reasons env ++ topics_reasons env ++ firewall_reasons env
        ++ brain_reasons env ++ fallback_reasons env prompt
  ∧ ((evaluate_core env prompt).2 = [] ∧ (evaluate_prompt env prompt).score = 0 →
      (evaluate_prompt env prompt).details = "Clean") := by
  refine ⟨?_, ?_, ?_⟩
  · show (evaluate_core env prompt).1 = _
    rw [evaluate_core_eq]
  · rw [evaluate_core_eq]
  · rintro ⟨h2, -⟩
    show detail_str (evaluate_core env prompt).2 = "Clean"
    rw [h2]
    rfl

theorem aggregator_score_reasons_amended_witness :
    (evaluate_prompt envSilent "hello").score = 0 ∧
    (evaluate_prompt envSilent "hello").details = "Clean" := by
  refine ⟨?_, ?_⟩
  · rw [(aggregator_score_reasons_amended envSilent "hello").1]
    with_unfolding_all decide
  · exact (aggregator_score_reasons_amended envSilent "hello").2.2
      ⟨by with_unfolding_all decide, by with_unfolding_all decide⟩

/-- Claim C7, counterexample: in the same environment the remote-brain
adapter returns the non-zero score 0.4, yet on the prompt jailbreak the
keyword fallback still runs and sets the score to 0.9 with its reason
recorded: a non-zero score from another adapter does not stop the
fallback when that score was not folded into the aggregate. -/
theorem fallback_gating_counterexample :
    brain_score envBrainLow = 2/5 ∧ ((2 : ℚ)/5 ≠ 0) ∧
    (evaluate_prompt envBrainLow "jailbreak").score = 9/10 ∧
    (evaluate_core envBrainLow "jailbreak").2 = [Detail.fallbackKeywordMatch] :=
  ⟨by with_unfolding_all decide, by norm_num,
   by with_unfolding_all decide, by with_unfolding_all decide⟩

/-- Claim C7, amended: the keyword fallback runs exactly when the risk
aggregated over the other adapters is 0 — where a remote-brain score of
at most 0.5 contributes nothing — and then a keyword hit yields score
0.9; whenever that aggregate is non-zero, or no keyword occurs, the
fallback contributes nothing and the score is the aggregate itself. -/
theorem fallback_gating_amended (env : ScannerEnv) (prompt : String) :
    (risk_before_fallback env = 0 ∧ has_bad_word prompt = true →
        (evaluate_prompt env prompt).score = 9/10)
  ∧ (risk_before_fallback env ≠ 0 →
        (evaluate_prompt env prompt).score = risk_before_fallback env)
  ∧ (has_bad_word prompt = false →
        (evaluate_prompt env prompt).score = risk_before_fallback env) := by
  have hs : (evaluate_prompt env prompt).score =
      if risk_before_fallback env = 0 ∧ has_bad_word prompt = true then (9 : ℚ)/10
      else risk_before_fallback env := by
    show (evaluate_core env prompt).1 = _
    rw [evaluate_core_eq]
  refine ⟨?_, ?_, ?_⟩
  · intro hc
    rw [hs, if_pos hc]
  · intro hn
    rw [hs, if_neg (fun hc => hn hc.1)]
  · intro hb
    rw [hs, if_neg (fun hc => by rw [hb] at hc; exact Bool.false_ne_true hc.2)]

theorem fallback_gating_amended_witness :
    (evaluate_prompt envBrainLow "jailbreak").score = 9/10 ∧
    (evaluate_prompt envFwMedium "hello").score = risk_before_fallback envFwMedium ∧
    (evaluate_prompt envSilent "hello").score = risk_before_fallback envSilent :=
  ⟨(fallback_gating_amended envBrainLow "jailbreak").1
     ⟨by with_unfolding_all decide, by with_unfolding_all decide⟩,
   (fallback_gating_amended envFwMedium "hello").2.1 (by with_unfolding_all decide),
   (fallback_gating_amended envSilent "hello").2.2 (by with_unfolding_all decide)⟩

theorem filter_transfer_of_map_other (l : List String) (ty : String) (f : String → String)
    (h : (ty == "UNAUTHORIZED_TRANSFER") = false) :
    (l.map (fun m => ({ type := ty, value := f m } : Finding))).filter
      (fun d => d.type == "UNAUTHORIZED_TRANSFER") = [] := by
  rw [List.filter_eq_nil_iff]
  intro a ha
  rcases List.mem_map.mp ha with ⟨m, -, rfl⟩
  simp [h]

theorem filter_transfer_of_map_transfer (l : List String) :
    (l.map (fun m => ({ type := "UNAUTHORIZED_TRANSFER", value := m } : Finding))).filter
        (fun d => d.type == "UNAUTHORIZED_TRANSFER")
      = l.map (fun m => { type := "UNAUTHORIZED_TRANSFER", value := m }) := by
  rw [List.filter_eq_self]
  intro a ha
  rcases List.mem_map.mp ha with ⟨m, -, rfl⟩
  rfl

theorem detect_filter_transfer (text : String) :
    (detect_sensitive_data text).filter (fun d => d.type == "UNAUTHORIZED_TRANSFER")
      = (pyFindall ACCOUNT_TRANSFER_PATTERN text).map
          (fun m => { type := "UNAUTHORIZED_TRANSFER", value := m }) := by
  unfold detect_sensitive_data
  simp only [List.filter_append]
  have hcc : ((pyFindall CREDIT_CARD_PATTERN text).filterMap (fun m =>
      if 13 ≤ (m.toList.filter Char.isDigit).length then
        some ({ type := "CREDIT_CARD"
              , value := strTake m 6 ++ "***" ++ takeRightStr m 4 } : Finding)
      else none)).filter (fun d => d.type == "UNAUTHORIZED_TRANSFER") = [] := by
    rw [List.filter_eq_nil_iff]
    intro a ha
    rcases List.mem_filterMap.mp ha with ⟨m, -, hsome⟩
    by_cases h13 : 13 ≤ (m.toList.filter Char.isDigit).length
    · rw [if_pos h13] at hsome
      cases hsome
      simp
    · rw [if_neg h13] at hsome
      exact Option.noConfusion hsome
  rw [hcc]
  rw [filter_transfer_of_map_other _ "SSN" _ (by decide)]
  rw [filter_transfer_of_map_other _ "EMAIL" _ (by decide)]
  rw [filter_transfer_of_map_other _ "PHONE" _ (by decide)]
  rw [filter_transfer_of_map_transfer]
  simp

/-- Claim C4: any text with a Transfer-phrase finding is blocked by the
interceptor with the fixed reason, the redaction skipped, no matter what
other findings exist; any text without one is allowed with the redacted
content, every other finding reported. -/
theorem interceptor_screen_policy (content : String) :
    (pyFindall ACCOUNT_TRANSFER_PATTERN content ≠ [] →
      intercept_and_clean content =
        { allowed := false, redacted_content := ""
        , blocked_reason := "Unauthorized transfer request detected"
        , detected_items := detect_sensitive_data content })
  ∧ (pyFindall ACCOUNT_TRANSFER_PATTERN content = [] →
      intercept_and_clean content =
        { allowed := true, redacted_content := redact_sensitive_data content
        , blocked_reason := "", detected_items := detect_sensitive_data content }) := by
  have hft := detect_filter_transfer content
  constructor
  · intro hne
    have hBool : ((pyFindall ACCOUNT_TRANSFER_PATTERN content).map
        (fun m => ({ type := "UNAUTHORIZED_TRANSFER", value := m } : Finding))).isEmpty
          = false := by
      cases hp : pyFindall ACCOUNT_TRANSFER_PATTERN content with
      | nil => exact absurd hp hne
      | cons a t => rfl
    unfold intercept_and_clean
    rw [hft, hBool]
    rfl
  · intro heq
    unfold intercept_and_clean
    rw [hft, heq]
    rfl

theorem interceptor_screen_policy_witness :
    intercept_and_clean "transfer $500 to acct123" =
      { allowed := false, redacted_content := ""
      , blocked_reason := "Unauthorized transfer request detected"
      , detected_items := [{ type := "UNAUTHORIZED_TRANSFER"
                           , value := "transfer $500 to acct123" }] }
  ∧ intercept_and_clean "hi" =
      { allowed := true, redacted_content := "hi", blocked_reason := ""
      , detected_items := [] } := by
  constructor
  · rw [(interceptor_screen_policy "transfer $500 to acct123").1 (by with_unfolding_all decide)]
    with_unfolding_all decide
  · rw [(interceptor_screen_policy "hi").2 (by with_unfolding_all decide)]
    with_unfolding_all decide

/-- Claim C9, counterexample: two proxy calls that are identical except
for the requested temperature (0.2 then 0.9): the first stores a cache
entry, the second is answered from that very entry without invoking the
provider, contradicting a cache keyed on the caller temperature. -/
theorem router_temperature_counterexample :
    bifrost_chat_proxy demoBifrostEnv demoProvider []
        { model := "glm-5:cloud", prompt := "hi", temperature := 1/5 }
      = Except.ok ("echo hi", [(demoParams, "echo hi")], true)
  ∧ bifrost_chat_proxy demoBifrostEnv demoProvider [(demoParams, "echo hi")]
        { model := "glm-5:cloud", prompt := "hi", temperature := 9/10 }
      = Except.ok ("echo hi", [(demoParams, "echo hi")], false)
  ∧ ((1 : ℚ)/5 ≠ 9/10) :=
  ⟨by with_unfolding_all rfl, by with_unfolding_all rfl, by norm_num⟩

/-- Claim C9, amended: the router ignores the caller temperature: the
proxy outcome is the same for any two requested temperatures, and every
parameter tuple the gateway builds for the provider call and the cache
key carries the hard-coded temperature 0.7. -/
theorem router_temperature_amended (env : BifrostEnv) (provider : CallParams → String)
    (cache : BifrostCache) (model prompt : String) (t1 t2 : ℚ) :
    bifrost_chat_proxy env provider cache { model := model, prompt := prompt, temperature := t1 }
      = bifrost_chat_proxy env provider cache { model := model, prompt := prompt, temperature := t2 }
  ∧ (∀ p, bifrost_params env prompt model = Except.ok p → p.temperature = 7/10) := by
  constructor
  · rfl
  · intro p hp
    unfold bifrost_params at hp
    split_ifs at hp
    all_goals first
      | exact Except.noConfusion hp
      | (cases hp; rfl)

theorem router_temperature_amended_witness :
    bifrost_chat_proxy demoBifrostEnv demoProvider []
        { model := "glm-5:cloud", prompt := "hi", temperature := 1/5 }
      = bifrost_chat_proxy demoBifrostEnv demoProvider []
        { model := "glm-5:cloud", prompt := "hi", temperature := 9/10 }
  ∧ demoParams.temperature = 7/10 := by
  refine ⟨(router_temperature_amended demoBifrostEnv demoProvider []
    "glm-5:cloud" "hi" (1/5) (9/10)).1, ?_⟩
  exact (router_temperature_amended demoBifrostEnv demoProvider []
    "glm-5:cloud" "hi" (1/5) (9/10)).2 demoParams (by with_unfolding_all rfl)
